import Mathlib

/-!
Verification of `dagster_airlift/core/serialization/serialized_data.py`.

The Python module defines immutable record types describing a cached snapshot
of an Airflow deployment (`TaskInfo`, `DagInfo`, `TaskHandle`,
`MappedAirflowTaskData`, `SerializedDagData`, `KeyScopedDataItem`,
`SerializedAirflowDefinitionsData`, `SerializedTaskHandleData`).  We embed the
data model shallowly: Python `Any` metadata values become the inductive
`PyValue`, Python `dict` becomes an association list in insertion order,
property accessors that can raise become `Except PyErr` computations, and the
dict comprehension backing `all_mapped_tasks` becomes a left fold of
Python-style dictionary insertion.
-/

set_option autoImplicit false

namespace SerializedData

/-- A JSON-like universe for Python values stored in the loosely typed
`metadata: Dict[str, Any]` mappings. -/
inductive PyValue where
  | str (s : String)
  | int (n : Int)
  | bool (b : Bool)
  | none
  | list (xs : List PyValue)
  | dict (entries : List (String × PyValue))

/-- Errors the Python accessors can raise: `KeyError` from a missing mapping
key, and `CheckError` from `dagster._check` type assertions. -/
inductive PyErr where
  | keyError (key : String)
  | checkError (msg : String)
deriving DecidableEq

/-- First-match association-list lookup; models `d[k]` / `k in d` on a Python
dict, whose keys are unique. -/
def dictLookup (d : List (String × PyValue)) (k : String) : Option PyValue :=
  (d.find? (fun p => p.1 == k)).map (fun p => p.2)

/-- `check.is_list(obj, str)` from `dagster._check`, specialised as used in the
source: raises `CheckError` when the object is not a list, or when some member
is not a `str`; otherwise returns the list of strings.  Members are checked in
order and the first offending member raises. -/
def checkStrListElems : List PyValue → Except PyErr (List String)
  | [] => Except.ok []
  | PyValue.str s :: rest => (checkStrListElems rest).map (fun ss => s :: ss)
  | _ :: _ => Except.error (PyErr.checkError "Member of list mismatches type. Expected str.")

/-- `check.is_list(v, str)`: the outer isinstance-list test, then the member
scan. -/
def checkIsListStr (v : PyValue) : Except PyErr (List String) :=
  match v with
  | PyValue.list xs => checkStrListElems xs
  | _ => Except.error (PyErr.checkError "Object is not a list.")

/-- Boolean classifier for `PyValue`s that are a list whose members are all
strings (the shape `check.is_list(-, str)` accepts). -/
def isStringList (v : PyValue) : Bool :=
  match v with
  | PyValue.list xs => xs.all (fun x => match x with | PyValue.str _ => true | _ => false)
  | _ => false

/-- `TaskInfo`: one Airflow task's identity and raw metadata, as constructed by
the `@record` decorator (per-field storage, no cross-field validation). -/
structure TaskInfo where
  webserver_url : String
  dag_id : String
  task_id : String
  metadata : List (String × PyValue)

/-- `TaskInfo.dag_url`: the f-string `f"{self.webserver_url}/dags/{self.dag_id}"`. -/
def TaskInfo.dag_url (t : TaskInfo) : String :=
  t.webserver_url ++ "/dags/" ++ t.dag_id

/-- `TaskInfo.downstream_task_ids`:
`check.is_list(self.metadata["downstream_task_ids"], str)`.  The subscript
raises `KeyError` when the key is absent; `check.is_list` raises `CheckError`
when the value is not a list of strings. -/
def TaskInfo.downstream_task_ids (t : TaskInfo) : Except PyErr (List String) :=
  match dictLookup t.metadata "downstream_task_ids" with
  | Option.none => Except.error (PyErr.keyError "downstream_task_ids")
  | Option.some v => checkIsListStr v

/-- `DagInfo`: one Airflow dag's identity and raw metadata. -/
structure DagInfo where
  webserver_url : String
  dag_id : String
  metadata : List (String × PyValue)

/-- `DagInfo.url`: the f-string `f"{self.webserver_url}/dags/{self.dag_id}"`. -/
def DagInfo.url (d : DagInfo) : String :=
  d.webserver_url ++ "/dags/" ++ d.dag_id

/-- `DagInfo.file_token`: `return self.metadata["file_token"]`.  The subscript
raises `KeyError` when the key is absent; the looked-up value is returned
without any type validation. -/
def DagInfo.file_token (d : DagInfo) : Except PyErr PyValue :=
  match dictLookup d.metadata "file_token" with
  | Option.none => Except.error (PyErr.keyError "file_token")
  | Option.some v => Except.ok v

/-- `TaskHandle(NamedTuple)`: the composite key `(dag_id, task_id)`.  As a Lean
structure, equality is structural, matching `NamedTuple` tuple equality. -/
structure TaskHandle where
  dag_id : String
  task_id : String
deriving DecidableEq

/-- CPython's 64-bit hash modulus. -/
def U64 : Nat := 2 ^ 64

/-- 64-bit left rotation on `Nat` representatives below `2^64`. -/
def rotl64 (x n : Nat) : Nat :=
  ((x * 2 ^ n) % U64) + (x % U64) / 2 ^ (64 - n)

/-- xxHash prime 1 used by CPython's tuple hash. -/
def xxprime1 : Nat := 11400714785074694791

/-- xxHash prime 2 used by CPython's tuple hash. -/
def xxprime2 : Nat := 14029467366897019727

/-- xxHash prime 5 used by CPython's tuple hash. -/
def xxprime5 : Nat := 2870177450012600261

/-- One accumulation step of CPython's tuple hash over one element hash. -/
def tupleHashStep (acc lane : Nat) : Nat :=
  (rotl64 ((acc + lane * xxprime2) % U64) 31 * xxprime1) % U64

/-- CPython's `tuplehash` over a list of element hashes (the structural hash a
`NamedTuple` such as `TaskHandle` inherits): a pure function of the element
hashes alone. -/
def tupleHash (lanes : List Nat) : Nat :=
  match (lanes.foldl tupleHashStep xxprime5 + Nat.xor lanes.length (Nat.xor xxprime5 3527539)) % U64 with
  | a => if a = U64 - 1 then 1546275796 else a

/-- `hash(TaskHandle(dag_id, task_id))`: the tuple hash of the two field
hashes.  CPython's string hash is seed-dependent, so it is a parameter. -/
def TaskHandle.pyHash (strHash : String → Nat) (h : TaskHandle) : Nat :=
  tupleHash [strHash h.dag_id, strHash h.task_id]

/-- `MappedAirflowTaskData`: the association of a `TaskInfo` with a
`TaskHandle` plus the optional migration flag.  The `@record` decorator only
type-checks each field; construction stores the three arguments verbatim. -/
structure MappedAirflowTaskData where
  task_info : TaskInfo
  task_handle : TaskHandle
  migrated : Option Bool

/-- `AssetKey`: dagster's asset identifier, a path of string parts. -/
structure AssetKey where
  path : List String
deriving DecidableEq

/-- `SerializedTaskHandleData`: per-task-handle migration state and asset keys. -/
structure SerializedTaskHandleData where
  migration_state : Option Bool
  asset_keys_in_task : List AssetKey

/-- `SerializedDagData`: pre-computed data about one dag.  Python mappings and
sets are embedded as lists in iteration order. -/
structure SerializedDagData where
  dag_id : String
  task_handle_data : List (String × SerializedTaskHandleData)
  dag_info : DagInfo
  source_code : String
  leaf_asset_keys : List AssetKey
  task_infos : List (String × TaskInfo)

/-- `KeyScopedDataItem`: one `(asset_key, mapped_tasks)` entry. -/
structure KeyScopedDataItem where
  asset_key : AssetKey
  mapped_tasks : List MappedAirflowTaskData

/-- `SerializedAirflowDefinitionsData`: the top-level cache envelope. -/
structure SerializedAirflowDefinitionsData where
  key_scoped_data_items : List KeyScopedDataItem
  dag_datas : List (String × SerializedDagData)

/-- Python dict insertion on an association list whose keys are unique:
replace the value at an existing key in place, otherwise append.  This is the
elementary step a dict comprehension iterates. -/
def pyDictInsert {α β : Type} [DecidableEq α] : List (α × β) → α → β → List (α × β)
  | [], k, v => [(k, v)]
  | (a, b) :: rest, k, v =>
      if a = k then (k, v) :: rest else (a, b) :: pyDictInsert rest k v

/-- First-match lookup on a generic association list (a Python dict read). -/
def assocLookup {α β : Type} [DecidableEq α] (d : List (α × β)) (k : α) : Option β :=
  (d.find? (fun p => p.1 = k)).map (fun p => p.2)

/-- `SerializedAirflowDefinitionsData.all_mapped_tasks`: the dict comprehension
`{item.asset_key: item.mapped_tasks for item in self.key_scoped_data_items}`,
i.e. a left fold of dict insertions over the items, starting from the empty
dict. -/
def SerializedAirflowDefinitionsData.all_mapped_tasks
    (e : SerializedAirflowDefinitionsData) : List (AssetKey × List MappedAirflowTaskData) :=
  e.key_scoped_data_items.foldl (fun d item => pyDictInsert d item.asset_key item.mapped_tasks) []

end SerializedData

namespace SerializedData

/-- Lookup in the empty dict finds nothing. -/
theorem assocLookup_nil {α β : Type} [DecidableEq α] (k : α) :
    assocLookup ([] : List (α × β)) k = Option.none := rfl

/-- Lookup steps over one entry of the association list. -/
theorem assocLookup_cons {α β : Type} [DecidableEq α] (a : α) (b : β)
    (rest : List (α × β)) (k : α) :
    assocLookup ((a, b) :: rest) k = if a = k then some b else assocLookup rest k := by
  by_cases h : a = k <;> simp [assocLookup, List.find?, h]

/-- Looking up in a dict after a Python insertion: the inserted key maps to the
new value, every other key is untouched. -/
theorem assocLookup_pyDictInsert {α β : Type} [DecidableEq α]
    (d : List (α × β)) (k' : α) (v : β) (k : α) :
    assocLookup (pyDictInsert d k' v) k = if k = k' then some v else assocLookup d k := by
  induction d with
  | nil =>
      by_cases h : k = k'
      · subst h
        simp [pyDictInsert, assocLookup_cons]
      · simp [pyDictInsert, assocLookup_cons, h, Ne.symm h]
  | cons p rest ih =>
      obtain ⟨a, b⟩ := p
      by_cases hak : a = k'
      · subst hak
        by_cases h : k = a
        · subst h
          simp [pyDictInsert, assocLookup_cons]
        · simp [pyDictInsert, assocLookup_cons, h, Ne.symm h]
      · by_cases hik : a = k
        · subst hik
          simp [pyDictInsert, hak, assocLookup_cons]
        · simp [pyDictInsert, hak, assocLookup_cons, hik, ih]

/-- Folding Python dict insertions over a list of items: the resulting lookup
returns the latest matching item, falling back to the initial dict. -/
theorem assocLookup_foldl_insert (items : List KeyScopedDataItem)
    (d : List (AssetKey × List MappedAirflowTaskData)) (k : AssetKey) :
    assocLookup (items.foldl (fun d item => pyDictInsert d item.asset_key item.mapped_tasks) d) k
      = ((items.reverse.find? (fun i => decide (i.asset_key = k))).map
          (fun i => i.mapped_tasks)).or (assocLookup d k) := by
  induction items generalizing d with
  | nil => simp
  | cons i rest ih =>
      rw [List.foldl_cons, ih]
      cases hfind : rest.reverse.find? (fun i => decide (i.asset_key = k)) with
      | some j => simp [List.find?_append, hfind]
      | none =>
          by_cases hk : i.asset_key = k
          · simp [List.find?_append, hfind, hk, assocLookup_pyDictInsert]
          · simp [List.find?_append, hfind, hk, assocLookup_pyDictInsert, Ne.symm hk]

/-- The derived map of `all_mapped_tasks`, characterised: looking up an asset
key returns the `mapped_tasks` of the LAST item carrying that key, and `none`
when no item carries it. -/
theorem all_mapped_tasks_lookup (e : SerializedAirflowDefinitionsData) (k : AssetKey) :
    assocLookup e.all_mapped_tasks k
      = (e.key_scoped_data_items.reverse.find? (fun i => decide (i.asset_key = k))).map
          (fun i => i.mapped_tasks) := by
  have h := assocLookup_foldl_insert e.key_scoped_data_items [] k
  simpa [SerializedAirflowDefinitionsData.all_mapped_tasks, assocLookup_nil,
    Option.or_none] using h

/-- When the items split as `pre ++ entry :: post`, `entry` carries key `k`,
and nothing in `post` carries `k`, the derived map sends `k` to `entry`'s
list. -/
theorem lookup_last_occurrence (e : SerializedAirflowDefinitionsData) (k : AssetKey)
    (pre post : List KeyScopedDataItem) (entry : KeyScopedDataItem)
    (hsplit : e.key_scoped_data_items = pre ++ entry :: post)
    (hk : entry.asset_key = k)
    (hpost : ∀ j ∈ post, ¬ j.asset_key = k) :
    assocLookup e.all_mapped_tasks k = some entry.mapped_tasks := by
  have hpostrev : post.reverse.find? (fun i => decide (i.asset_key = k)) = Option.none := by
    refine List.find?_eq_none.2 (fun x hx => ?_)
    simp only [List.mem_reverse] at hx
    simpa using hpost x hx
  rw [all_mapped_tasks_lookup, hsplit]
  simp [List.find?_append, hpostrev, hk]

end SerializedData

namespace SerializedData

/-- Concrete values used by the witnesses below. -/
def tInfo0 : TaskInfo := ⟨"http://localhost:8080", "dag0", "task0", []⟩

/-- A concrete handle matching `tInfo0`. -/
def tHandle0 : TaskHandle := ⟨"dag0", "task0"⟩

/-- A concrete binding. -/
def binding0 : MappedAirflowTaskData := ⟨tInfo0, tHandle0, Option.none⟩

/-- A concrete asset key. -/
def keyA : AssetKey := ⟨["a"]⟩

/-- A second concrete asset key. -/
def keyB : AssetKey := ⟨["b"]⟩

/-- An envelope whose item list repeats `keyA`: first with no bindings, then
with `binding0`. -/
def envDup : SerializedAirflowDefinitionsData :=
  ⟨[⟨keyA, []⟩, ⟨keyA, [binding0]⟩], []⟩

/-- An envelope with a single item carrying `keyB` and an empty binding list. -/
def envEmptyItem : SerializedAirflowDefinitionsData :=
  ⟨[⟨keyB, []⟩], []⟩

/-- C4: `all_mapped_tasks` is built by an order-preserving pass over
`key_scoped_data_items`; when two entries carry the same asset key the later
entry's `mapped_tasks` overwrites the earlier one, and an entry whose key
occurs nowhere else maps exactly to its own `mapped_tasks` list. -/
theorem all_mapped_tasks_last_wins (e : SerializedAirflowDefinitionsData) (k : AssetKey) :
    (∀ pre i mid j post,
        e.key_scoped_data_items = pre ++ i :: (mid ++ j :: post) →
        i.asset_key = k → j.asset_key = k → (∀ l ∈ post, ¬ l.asset_key = k) →
        assocLookup e.all_mapped_tasks k = some j.mapped_tasks) ∧
    (∀ pre i post,
        e.key_scoped_data_items = pre ++ i :: post →
        i.asset_key = k →
        (∀ l ∈ pre, ¬ l.asset_key = k) → (∀ l ∈ post, ¬ l.asset_key = k) →
        assocLookup e.all_mapped_tasks k = some i.mapped_tasks) := by
  constructor
  · intro pre i mid j post hsplit hik hjk hpost
    refine lookup_last_occurrence e k (pre ++ i :: mid) post j ?_ hjk hpost
    rw [hsplit]
    simp
  · intro pre i post hsplit hik hpre hpost
    exact lookup_last_occurrence e k pre post i hsplit hik hpost

/-- Witness for C4 at a concrete duplicated-key envelope: the later entry's
binding list is the one retained. -/
theorem all_mapped_tasks_last_wins_witness :
    assocLookup envDup.all_mapped_tasks keyA = some [binding0] :=
  (all_mapped_tasks_last_wins envDup keyA).1 [] ⟨keyA, []⟩ [] ⟨keyA, [binding0]⟩ []
    rfl rfl rfl (by simp)

/-- C9: building `all_mapped_tasks` filters nothing: an entry with an empty
`mapped_tasks` list, whose key is not repeated later, still appears in the
derived map and maps to the empty list. -/
theorem all_mapped_tasks_keeps_empty_entry (e : SerializedAirflowDefinitionsData)
    (k : AssetKey) (pre post : List KeyScopedDataItem) (entry : KeyScopedDataItem)
    (hsplit : e.key_scoped_data_items = pre ++ entry :: post)
    (hk : entry.asset_key = k)
    (hempty : entry.mapped_tasks = [])
    (hpost : ∀ j ∈ post, ¬ j.asset_key = k) :
    assocLookup e.all_mapped_tasks k = some [] := by
  rw [← hempty]
  exact lookup_last_occurrence e k pre post entry hsplit hk hpost

/-- Witness for C9 at a concrete envelope holding one empty-list entry. -/
theorem all_mapped_tasks_keeps_empty_entry_witness :
    assocLookup envEmptyItem.all_mapped_tasks keyB = some [] :=
  all_mapped_tasks_keeps_empty_entry envEmptyItem keyB [] [] ⟨keyB, []⟩
    rfl rfl rfl (by simp)

/-- A binding whose handle identifiers disagree with the embedded record's. -/
def mismatchedBinding : MappedAirflowTaskData :=
  ⟨⟨"http://localhost:8080", "dag_x", "task_x", []⟩, ⟨"dag_y", "task_y"⟩, Option.none⟩

/-- Counterexample to C1: a `MappedAirflowTaskData` whose handle fields
disagree with `task_info`'s identifiers is a perfectly constructible value, so
the claimed cross-consistency invariant does not hold of every binding. -/
theorem mappedAirflowTaskData_mismatch_constructible :
    ¬ (mismatchedBinding.task_handle.dag_id = mismatchedBinding.task_info.dag_id ∧
       mismatchedBinding.task_handle.task_id = mismatchedBinding.task_info.task_id) := by
  decide

/-- C1 amended: construction of `MappedAirflowTaskData` performs no
cross-consistency validation; the three arguments are stored verbatim, so any
combination of `task_info` and `task_handle` — matching or not — yields a
value. -/
theorem mappedAirflowTaskData_stores_fields (ti : TaskInfo) (th : TaskHandle)
    (m : Option Bool) :
    (MappedAirflowTaskData.mk ti th m).task_info = ti ∧
    (MappedAirflowTaskData.mk ti th m).task_handle = th ∧
    (MappedAirflowTaskData.mk ti th m).migrated = m :=
  ⟨rfl, rfl, rfl⟩

/-- A `DagInfo` whose metadata lacks `"file_token"`. -/
def dagNoToken : DagInfo := ⟨"http://localhost:8080", "dag0", []⟩

/-- A `DagInfo` whose `"file_token"` value is an int, not a string. -/
def dagIntToken : DagInfo :=
  ⟨"http://localhost:8080", "dag0", [("file_token", PyValue.int 7)]⟩

/-- Counterexample to C2: with a non-string value under `"file_token"`, the
accessor does not fail — it returns the non-string value unchanged. -/
theorem dagInfo_file_token_returns_nonstring :
    dagIntToken.file_token = Except.ok (PyValue.int 7) := rfl

/-- C2 amended: `DagInfo.file_token` fails (with `KeyError`) only when the key
is absent; when the key is present the stored value is returned as-is, with no
type validation. -/
theorem dagInfo_file_token_behaviour (d : DagInfo) :
    (dictLookup d.metadata "file_token" = Option.none →
        d.file_token = Except.error (PyErr.keyError "file_token")) ∧
    (∀ v, dictLookup d.metadata "file_token" = some v → d.file_token = Except.ok v) := by
  constructor
  · intro h
    simp [DagInfo.file_token, h]
  · intro v h
    simp [DagInfo.file_token, h]

/-- Witness for the amended C2 at concrete records. -/
theorem dagInfo_file_token_behaviour_witness :
    dagNoToken.file_token = Except.error (PyErr.keyError "file_token") ∧
    dagIntToken.file_token = Except.ok (PyValue.int 7) :=
  ⟨(dagInfo_file_token_behaviour dagNoToken).1 rfl,
   (dagInfo_file_token_behaviour dagIntToken).2 (PyValue.int 7) rfl⟩

/-- When a list of `PyValue`s is not all strings, the member scan of
`check.is_list` raises a `CheckError`. -/
theorem checkStrListElems_error (xs : List PyValue)
    (h : xs.all (fun x => match x with | PyValue.str _ => true | _ => false) = false) :
    ∃ m, checkStrListElems xs = Except.error (PyErr.checkError m) := by
  induction xs with
  | nil => simp at h
  | cons x rest ih =>
      cases x with
      | str s =>
          simp only [List.all_cons, Bool.and_eq_false_iff] at h
          rcases h with h | h
          · simp at h
          · obtain ⟨m, hm⟩ := ih h
            exact ⟨m, by simp [checkStrListElems, hm, Except.map]⟩
      | int n => exact ⟨_, rfl⟩
      | bool b => exact ⟨_, rfl⟩
      | none => exact ⟨_, rfl⟩
      | list ys => exact ⟨_, rfl⟩
      | dict es => exact ⟨_, rfl⟩

/-- A `PyValue` outside the list-of-strings shape makes `check.is_list(-, str)`
raise a `CheckError`. -/
theorem checkIsListStr_error (v : PyValue) (h : isStringList v = false) :
    ∃ m, checkIsListStr v = Except.error (PyErr.checkError m) := by
  cases v with
  | list xs =>
      simp only [isStringList] at h
      exact checkStrListElems_error xs h
  | str s => exact ⟨_, rfl⟩
  | int n => exact ⟨_, rfl⟩
  | bool b => exact ⟨_, rfl⟩
  | none => exact ⟨_, rfl⟩
  | dict es => exact ⟨_, rfl⟩

/-- C3: `TaskInfo.downstream_task_ids` fails hard — with `KeyError` when the
key is absent, and with `check`'s `CheckError` when the stored value is not a
list of strings; it never returns a default. -/
theorem taskInfo_downstream_task_ids_fails (t : TaskInfo) :
    (dictLookup t.metadata "downstream_task_ids" = Option.none →
        t.downstream_task_ids = Except.error (PyErr.keyError "downstream_task_ids")) ∧
    (∀ v, dictLookup t.metadata "downstream_task_ids" = some v → isStringList v = false →
        ∃ m, t.downstream_task_ids = Except.error (PyErr.checkError m)) := by
  constructor
  · intro h
    simp [TaskInfo.downstream_task_ids, h]
  · intro v h hv
    obtain ⟨m, hm⟩ := checkIsListStr_error v hv
    exact ⟨m, by simp [TaskInfo.downstream_task_ids, h, hm]⟩

/-- A `TaskInfo` whose metadata lacks `"downstream_task_ids"`. -/
def taskNoKey : TaskInfo := ⟨"http://localhost:8080", "dag0", "task0", []⟩

/-- A `TaskInfo` whose `"downstream_task_ids"` value is an int. -/
def taskBadVal : TaskInfo :=
  ⟨"http://localhost:8080", "dag0", "task0", [("downstream_task_ids", PyValue.int 3)]⟩

/-- Witness for C3 at concrete records. -/
theorem taskInfo_downstream_task_ids_fails_witness :
    taskNoKey.downstream_task_ids = Except.error (PyErr.keyError "downstream_task_ids") ∧
    ∃ m, taskBadVal.downstream_task_ids = Except.error (PyErr.checkError m) :=
  ⟨(taskInfo_downstream_task_ids_fails taskNoKey).1 rfl,
   (taskInfo_downstream_task_ids_fails taskBadVal).2 (PyValue.int 3) rfl rfl⟩

/-- C7: both URL accessors are the concatenation of the record's webserver
base URL, the literal `"/dags/"`, and the record's `dag_id`. -/
theorem url_is_concatenation (t : TaskInfo) (d : DagInfo) :
    t.dag_url = t.webserver_url ++ "/dags/" ++ t.dag_id ∧
    d.url = d.webserver_url ++ "/dags/" ++ d.dag_id :=
  ⟨rfl, rfl⟩

/-- C8: `TaskHandle` equality is structural — two handles are equal exactly
when their `dag_id` and `task_id` fields are — and the (tuple) hash is a pure
function of the field values, so equal handles hash equally under any string
hash. -/
theorem taskHandle_structural_eq_hash (a b : TaskHandle) :
    (a = b ↔ a.dag_id = b.dag_id ∧ a.task_id = b.task_id) ∧
    (∀ strHash : String → Nat, a = b → a.pyHash strHash = b.pyHash strHash) := by
  constructor
  · constructor
    · intro h
      subst h
      exact ⟨rfl, rfl⟩
    · intro h
      obtain ⟨h1, h2⟩ := h
      cases a
      cases b
      cases h1
      cases h2
      rfl
  · intro f h
    subst h
    rfl

/-- Witness for C8 at concrete handles, discharging both directions. -/
theorem taskHandle_structural_eq_hash_witness :
    (TaskHandle.mk "dag0" "task0" = TaskHandle.mk "dag0" "task0") ∧
    (TaskHandle.mk "dag0" "task0").pyHash (fun s => s.length)
      = (TaskHandle.mk "dag0" "task0").pyHash (fun s => s.length) :=
  ⟨((taskHandle_structural_eq_hash ⟨"dag0", "task0"⟩ ⟨"dag0", "task0"⟩).1).mpr ⟨rfl, rfl⟩,
   (taskHandle_structural_eq_hash ⟨"dag0", "task0"⟩ ⟨"dag0", "task0"⟩).2
     (fun s => s.length) rfl⟩

/-- C10: the URL accessors are total functions of the identity fields alone:
two records differing only in their metadata mapping produce the same URL, and
no metadata key is consulted. -/
theorem urls_ignore_metadata (w d t : String) (m1 m2 : List (String × PyValue)) :
    (TaskInfo.mk w d t m1).dag_url = (TaskInfo.mk w d t m2).dag_url ∧
    (DagInfo.mk w d m1).url = (DagInfo.mk w d m2).url :=
  ⟨rfl, rfl⟩

/-- Modelled from the spec: the `dagSnapshot(dag_id) -> DagSnapshot | NotFound`
query of the cache envelope.  The source declares only the `dag_datas` mapping
field; the lookup accessor itself is absent from the source, and the spec
requires it to return `NotFound` as an explicit absent value.  `NotFound` is
embedded as `Option.none`. -/
def SerializedAirflowDefinitionsData.dagSnapshot (e : SerializedAirflowDefinitionsData)
    (dag_id : String) : Option SerializedDagData :=
  assocLookup e.dag_datas dag_id

/-- C6: querying the snapshot of a dag id absent from `dag_datas` yields the
distinct absent value `NotFound` (`Option.none`) — a value, not a raised
error, and not a default snapshot. -/
theorem dagSnapshot_absent_is_not_found (e : SerializedAirflowDefinitionsData)
    (dag_id : String) (h : ∀ p ∈ e.dag_datas, ¬ p.1 = dag_id) :
    e.dagSnapshot dag_id = Option.none := by
  have hfind : e.dag_datas.find? (fun p => decide (p.1 = dag_id)) = Option.none :=
    List.find?_eq_none.2 (fun p hp => by simpa using h p hp)
  simp [SerializedAirflowDefinitionsData.dagSnapshot, assocLookup, hfind]

/-- A concrete `DagInfo` for the C6 witness envelope. -/
def dagInfo0 : DagInfo :=
  ⟨"http://localhost:8080", "dag0", [("file_token", PyValue.str "tok")]⟩

/-- A concrete dag snapshot. -/
def dagData0 : SerializedDagData :=
  ⟨"dag0", [], dagInfo0, "print()", [keyA], [("task0", tInfo0)]⟩

/-- An envelope tracking only `"dag0"`. -/
def envWithDag : SerializedAirflowDefinitionsData :=
  ⟨[], [("dag0", dagData0)]⟩

/-- Witness for C6: `"nonexistent_dag"` is not tracked by `envWithDag`, and
its snapshot query returns the absent value. -/
theorem dagSnapshot_absent_is_not_found_witness :
    envWithDag.dagSnapshot "nonexistent_dag" = Option.none :=
  dagSnapshot_absent_is_not_found envWithDag "nonexistent_dag" (by decide)

end SerializedData

namespace SerializedData

/-!
The encode/decode pair below is the persistence codec the spec requires of the
collaborator behind `whitelist_for_serdes`; that codec lives outside this
module, so it is modelled from the spec, which constrains it only to
round-trip every entity exactly.  Records encode to tagged `PyValue` trees and
decode by exact shape.
-/

/-- Modelled from the spec: encoding of an optional migration flag for the
persistence codec (`whitelist_for_serdes` is outside this module). -/
def encOptBool : Option Bool → PyValue
  | Option.none => PyValue.none
  | Option.some b => PyValue.bool b

/-- Modelled from the spec: decoding of an optional migration flag. -/
def decOptBool : PyValue → Option (Option Bool)
  | PyValue.none => Option.some Option.none
  | PyValue.bool b => Option.some (Option.some b)
  | _ => Option.none

/-- Modelled from the spec: encoding of an `AssetKey` as its path. -/
def encAssetKey (k : AssetKey) : PyValue :=
  PyValue.list (k.path.map PyValue.str)

/-- Decoding of a single string value. -/
def decStr : PyValue → Option String
  | PyValue.str s => Option.some s
  | _ => Option.none

/-- Element-wise decoding of an encoded list; fails if any element fails. -/
def decAll {α : Type} (g : PyValue → Option α) : List PyValue → Option (List α)
  | [] => Option.some []
  | v :: rest => (g v).bind (fun a => (decAll g rest).map (fun as => a :: as))

/-- Entry-wise decoding of an encoded string-keyed mapping. -/
def decPairs {α : Type} (g : PyValue → Option α) :
    List (String × PyValue) → Option (List (String × α))
  | [] => Option.some []
  | (k, v) :: rest =>
      (g v).bind (fun a => (decPairs g rest).map (fun as => (k, a) :: as))

/-- Modelled from the spec: decoding of an `AssetKey`. -/
def decAssetKey : PyValue → Option AssetKey
  | PyValue.list vs => (decAll decStr vs).map AssetKey.mk
  | _ => Option.none

/-- Modelled from the spec: encoding of a `TaskInfo` record. -/
def encTaskInfo (t : TaskInfo) : PyValue :=
  PyValue.dict [("webserver_url", PyValue.str t.webserver_url),
    ("dag_id", PyValue.str t.dag_id),
    ("task_id", PyValue.str t.task_id),
    ("metadata", PyValue.dict t.metadata)]

/-- Modelled from the spec: decoding of a `TaskInfo` record. -/
def decTaskInfo : PyValue → Option TaskInfo
  | PyValue.dict [("webserver_url", PyValue.str w),
      ("dag_id", PyValue.str d),
      ("task_id", PyValue.str t),
      ("metadata", PyValue.dict m)] => Option.some ⟨w, d, t, m⟩
  | _ => Option.none

/-- Modelled from the spec: encoding of a `DagInfo` record. -/
def encDagInfo (d : DagInfo) : PyValue :=
  PyValue.dict [("webserver_url", PyValue.str d.webserver_url),
    ("dag_id", PyValue.str d.dag_id),
    ("metadata", PyValue.dict d.metadata)]

/-- Modelled from the spec: decoding of a `DagInfo` record. -/
def decDagInfo : PyValue → Option DagInfo
  | PyValue.dict [("webserver_url", PyValue.str w),
      ("dag_id", PyValue.str d),
      ("metadata", PyValue.dict m)] => Option.some ⟨w, d, m⟩
  | _ => Option.none

/-- Modelled from the spec: encoding of a `TaskHandle`. -/
def encTaskHandle (h : TaskHandle) : PyValue :=
  PyValue.dict [("dag_id", PyValue.str h.dag_id), ("task_id", PyValue.str h.task_id)]

/-- Modelled from the spec: decoding of a `TaskHandle`. -/
def decTaskHandle : PyValue → Option TaskHandle
  | PyValue.dict [("dag_id", PyValue.str d), ("task_id", PyValue.str t)] =>
      Option.some ⟨d, t⟩
  | _ => Option.none

/-- Modelled from the spec: encoding of a `MappedAirflowTaskData` binding. -/
def encMapped (b : MappedAirflowTaskData) : PyValue :=
  PyValue.dict [("task_info", encTaskInfo b.task_info),
    ("task_handle", encTaskHandle b.task_handle),
    ("migrated", encOptBool b.migrated)]

/-- Modelled from the spec: decoding of a `MappedAirflowTaskData` binding. -/
def decMapped : PyValue → Option MappedAirflowTaskData
  | PyValue.dict [("task_info", vi), ("task_handle", vh), ("migrated", vm)] =>
      (decTaskInfo vi).bind (fun ti =>
        (decTaskHandle vh).bind (fun th =>
          (decOptBool vm).map (fun m => ⟨ti, th, m⟩)))
  | _ => Option.none

/-- Modelled from the spec: encoding of a `SerializedTaskHandleData`. -/
def encTaskHandleData (d : SerializedTaskHandleData) : PyValue :=
  PyValue.dict [("migration_state", encOptBool d.migration_state),
    ("asset_keys_in_task", PyValue.list (d.asset_keys_in_task.map encAssetKey))]

/-- Modelled from the spec: decoding of a `SerializedTaskHandleData`. -/
def decTaskHandleData : PyValue → Option SerializedTaskHandleData
  | PyValue.dict [("migration_state", vm),
      ("asset_keys_in_task", PyValue.list vks)] =>
      (decOptBool vm).bind (fun m =>
        (decAll decAssetKey vks).map (fun ks => ⟨m, ks⟩))
  | _ => Option.none

/-- Modelled from the spec: encoding of a `SerializedDagData` snapshot. -/
def encSerializedDagData (d : SerializedDagData) : PyValue :=
  PyValue.dict [("dag_id", PyValue.str d.dag_id),
    ("task_handle_data",
      PyValue.dict (d.task_handle_data.map (fun p => (p.1, encTaskHandleData p.2)))),
    ("dag_info", encDagInfo d.dag_info),
    ("source_code", PyValue.str d.source_code),
    ("leaf_asset_keys", PyValue.list (d.leaf_asset_keys.map encAssetKey)),
    ("task_infos", PyValue.dict (d.task_infos.map (fun p => (p.1, encTaskInfo p.2))))]

/-- Modelled from the spec: decoding of a `SerializedDagData` snapshot. -/
def decSerializedDagData : PyValue → Option SerializedDagData
  | PyValue.dict [("dag_id", PyValue.str di),
      ("task_handle_data", PyValue.dict thd),
      ("dag_info", vdi),
      ("source_code", PyValue.str sc),
      ("leaf_asset_keys", PyValue.list lak),
      ("task_infos", PyValue.dict tis)] =>
      (decPairs decTaskHandleData thd).bind (fun thd' =>
        (decDagInfo vdi).bind (fun dinfo =>
          (decAll decAssetKey lak).bind (fun lak' =>
            (decPairs decTaskInfo tis).map (fun tis' =>
              ⟨di, thd', dinfo, sc, lak', tis'⟩))))
  | _ => Option.none

/-- Modelled from the spec: encoding of a `KeyScopedDataItem`. -/
def encKeyScopedDataItem (i : KeyScopedDataItem) : PyValue :=
  PyValue.dict [("asset_key", encAssetKey i.asset_key),
    ("mapped_tasks", PyValue.list (i.mapped_tasks.map encMapped))]

/-- Modelled from the spec: decoding of a `KeyScopedDataItem`. -/
def decKeyScopedDataItem : PyValue → Option KeyScopedDataItem
  | PyValue.dict [("asset_key", vk), ("mapped_tasks", PyValue.list vts)] =>
      (decAssetKey vk).bind (fun k =>
        (decAll decMapped vts).map (fun ts => ⟨k, ts⟩))
  | _ => Option.none

/-- Modelled from the spec: encoding of the whole cache envelope — the
versioned byte envelope handed to the persistence collaborator. -/
def encode (e : SerializedAirflowDefinitionsData) : PyValue :=
  PyValue.dict [("key_scoped_data_items",
      PyValue.list (e.key_scoped_data_items.map encKeyScopedDataItem)),
    ("dag_datas",
      PyValue.dict (e.dag_datas.map (fun p => (p.1, encSerializedDagData p.2))))]

/-- Modelled from the spec: decoding of the whole cache envelope. -/
def decode : PyValue → Option SerializedAirflowDefinitionsData
  | PyValue.dict [("key_scoped_data_items", PyValue.list items),
      ("dag_datas", PyValue.dict dd)] =>
      (decAll decKeyScopedDataItem items).bind (fun items' =>
        (decPairs decSerializedDagData dd).map (fun dd' => ⟨items', dd'⟩))
  | _ => Option.none

/-- Element-wise decoding inverts element-wise encoding. -/
theorem decAll_map {α : Type} (g : PyValue → Option α) (f : α → PyValue)
    (h : ∀ x, g (f x) = Option.some x) (xs : List α) :
    decAll g (xs.map f) = Option.some xs := by
  induction xs with
  | nil => rfl
  | cons x rest ih => simp [decAll, h, ih]

/-- Entry-wise decoding inverts entry-wise encoding of a mapping. -/
theorem decPairs_map {α : Type} (g : PyValue → Option α) (f : α → PyValue)
    (h : ∀ x, g (f x) = Option.some x) (d : List (String × α)) :
    decPairs g (d.map (fun p => (p.1, f p.2))) = Option.some d := by
  induction d with
  | nil => rfl
  | cons p rest ih =>
      obtain ⟨k, v⟩ := p
      simp [decPairs, h, ih]

/-- The optional-flag codec round-trips. -/
theorem decOptBool_encOptBool (m : Option Bool) : decOptBool (encOptBool m) = Option.some m := by
  cases m <;> rfl

/-- The asset-key codec round-trips. -/
theorem decAssetKey_encAssetKey (k : AssetKey) : decAssetKey (encAssetKey k) = Option.some k := by
  simp [encAssetKey, decAssetKey, decAll_map decStr PyValue.str (fun x => rfl)]

/-- The `TaskInfo` codec round-trips. -/
theorem decTaskInfo_encTaskInfo (t : TaskInfo) : decTaskInfo (encTaskInfo t) = Option.some t := rfl

/-- The `DagInfo` codec round-trips. -/
theorem decDagInfo_encDagInfo (d : DagInfo) : decDagInfo (encDagInfo d) = Option.some d := rfl

/-- The `TaskHandle` codec round-trips. -/
theorem decTaskHandle_encTaskHandle (h : TaskHandle) :
    decTaskHandle (encTaskHandle h) = Option.some h := rfl

/-- The binding codec round-trips. -/
theorem decMapped_encMapped (b : MappedAirflowTaskData) :
    decMapped (encMapped b) = Option.some b := by
  cases b with
  | mk ti th m => cases m <;> rfl

/-- The per-task-handle data codec round-trips. -/
theorem decTaskHandleData_encTaskHandleData (d : SerializedTaskHandleData) :
    decTaskHandleData (encTaskHandleData d) = Option.some d := by
  cases d with
  | mk m ks =>
      cases m <;>
        simp [encTaskHandleData, decTaskHandleData, encOptBool, decOptBool,
          decAll_map decAssetKey encAssetKey decAssetKey_encAssetKey]

/-- The dag-snapshot codec round-trips. -/
theorem decSerializedDagData_encSerializedDagData (d : SerializedDagData) :
    decSerializedDagData (encSerializedDagData d) = Option.some d := by
  simp [encSerializedDagData, decSerializedDagData,
    decPairs_map decTaskHandleData encTaskHandleData decTaskHandleData_encTaskHandleData,
    decDagInfo_encDagInfo,
    decAll_map decAssetKey encAssetKey decAssetKey_encAssetKey,
    decPairs_map decTaskInfo encTaskInfo decTaskInfo_encTaskInfo]

/-- The item codec round-trips. -/
theorem decKeyScopedDataItem_encKeyScopedDataItem (i : KeyScopedDataItem) :
    decKeyScopedDataItem (encKeyScopedDataItem i) = Option.some i := by
  simp [encKeyScopedDataItem, decKeyScopedDataItem, decAssetKey_encAssetKey,
    decAll_map decMapped encMapped decMapped_encMapped]

/-- C5: decoding the encoding of any constructed cache envelope yields a value
structurally equal to the original, across every nested entity. -/
theorem decode_encode_roundtrip (e : SerializedAirflowDefinitionsData) :
    decode (encode e) = Option.some e := by
  simp [encode, decode,
    decAll_map decKeyScopedDataItem encKeyScopedDataItem
      decKeyScopedDataItem_encKeyScopedDataItem,
    decPairs_map decSerializedDagData encSerializedDagData
      decSerializedDagData_encSerializedDagData]

end SerializedData
